import Mathlib

/-!
Verification of the core of `conductor-mcp` (`src/server.py`), a terminal
orchestration server.  The Python source is shallowly embedded: pure decision
logic becomes Lean functions, filesystem / subprocess effects become explicit
parameters (file states, command results) and explicit state passing
(configuration in, configuration out, plus a `saved` flag recording whether
`save_config` was invoked).  Python `int` arithmetic on tmux pane geometry is
modelled with `Nat` (tmux reports non-negative dimensions; Python `//` on
non-negative operands is `Nat` division).  Exceptions that the Python code can
raise are modelled with `Except String`, the string naming the Python
exception class.
-/

set_option maxHeartbeats 1000000

namespace Conductor

/-! ### Pane geometry and the placement decision engine

`_find_best_split` (server.py lines 144-206) consumes the pane dictionaries
produced by `list_panes`, but reads only the `pane_id`, `width` and `height`
keys.  The `Pane` structure carries exactly those fields; the pane listing
itself is passed as an explicit argument in place of the `list_panes(session)`
call. -/

structure Pane where
  pane_id : String
  width : Nat
  height : Nat
  deriving DecidableEq, Repr

/-- Pane area, the sort key `p["width"] * p["height"]` of `_find_best_split`. -/
def paneArea (p : Pane) : Nat := p.width * p.height

/-- The three possible `action` values of a placement decision. -/
inductive SplitAction where
  | split_h
  | split_v
  | new_window
  deriving DecidableEq, Repr

/-- The decision dictionary returned by `_find_best_split`:
`{"action": ..., "target_pane": ..., "reason": ...}`. -/
structure Decision where
  action : SplitAction
  target_pane : Option String
  reason : String
  deriving DecidableEq, Repr

/-- Stable insertion of a pane into a list already sorted by area descending:
the pane goes in front of the first element whose area is not strictly
larger.  Together with `sortByAreaDesc` this is a stable descending sort, the
semantics Python guarantees for
`sorted(panes, key=lambda p: p["width"] * p["height"], reverse=True)`
(equal-area panes keep their input order). -/
def insertDesc (p : Pane) : List Pane → List Pane
  | [] => [p]
  | q :: qs => if paneArea q > paneArea p then q :: insertDesc p qs else p :: q :: qs

/-- Stable sort by area, largest first (server.py line 179). -/
def sortByAreaDesc : List Pane → List Pane
  | [] => []
  | p :: ps => insertDesc p (sortByAreaDesc ps)

/-- The candidate loop of `_find_best_split` (server.py lines 181-206): first
pane whose halved width still meets `min_w` (with full height meeting `min_h`)
gives a horizontal split; otherwise, if the full width meets `min_w` and the
halved height meets `min_h`, that same pane gives a vertical split; otherwise
move to the next candidate.  An exhausted list yields `new_window`. -/
def splitLoop (min_w min_h : Nat) : List Pane → Decision
  | [] =>
    { action := .new_window
      target_pane := none
      reason := "No pane large enough to split (need " ++ toString min_w ++ "x"
        ++ toString min_h ++ " per half)" }
  | p :: rest =>
    let w := p.width
    let h := p.height
    let half_w := w / 2
    let half_h := h / 2
    if half_w ≥ min_w ∧ h ≥ min_h then
      { action := .split_h
        target_pane := some p.pane_id
        reason := "Horizontal split of " ++ p.pane_id ++ " (" ++ toString w ++ "x"
          ++ toString h ++ ") -> 2x(" ++ toString half_w ++ "x" ++ toString h ++ ")" }
    else if w ≥ min_w ∧ half_h ≥ min_h then
      { action := .split_v
        target_pane := some p.pane_id
        reason := "Vertical split of " ++ p.pane_id ++ " (" ++ toString w ++ "x"
          ++ toString h ++ ") -> 2x(" ++ toString w ++ "x" ++ toString half_h ++ ")" }
    else
      splitLoop min_w min_h rest

/-- `_find_best_split(session, min_w, min_h, target_pane)` (server.py lines
144-206), with the `list_panes(session)` call replaced by the explicit pane
list `panes`.  With an explicit target the candidates are the panes whose id
matches; otherwise all panes sorted by area descending. -/
def find_best_split (panes : List Pane) (min_w min_h : Nat)
    (target_pane : Option String) : Decision :=
  if panes = [] then
    { action := .new_window, target_pane := none, reason := "No panes found in session" }
  else
    match target_pane with
    | some t =>
      let candidates := panes.filter (fun p => p.pane_id == t)
      if candidates = [] then
        { action := .new_window
          target_pane := none
          reason := "Target pane " ++ t ++ " not found" }
      else
        splitLoop min_w min_h candidates
    | none => splitLoop min_w min_h (sortByAreaDesc panes)

/-- First pane of maximal area, earliest in the list among equal areas: the
head of the stable descending sort. -/
def firstMax : List Pane → Option Pane
  | [] => none
  | p :: ps =>
    match firstMax ps with
    | none => some p
    | some m => if paneArea m > paneArea p then some m else some p

/-! ### Configuration state and the voice-pool allocator

`get_worker_voice`, `release_worker_voice` (server.py lines 98-141) and
`reset_voice_assignments` (lines 2099-2110) each perform
`load_config()` / `save_config(config)` around a pure state update.  They are
embedded as functions from the loaded configuration to the new configuration,
with a `saved` flag recording whether `save_config` was called.  The
`worker_voice_assignments` dict is an association list (Python dicts preserve
insertion order and new keys are appended at the end). -/

/-- The 14 available edge-tts voices (server.py lines 37-52). -/
def VOICE_POOL : List String :=
  ["en-US-AriaNeural", "en-US-GuyNeural", "en-US-JennyNeural", "en-US-DavisNeural",
   "en-US-AmberNeural", "en-US-AndrewNeural", "en-US-EmmaNeural", "en-US-BrianNeural",
   "en-US-AnaNeural", "en-US-ChristopherNeural", "en-GB-SoniaNeural", "en-GB-RyanNeural",
   "en-AU-NatashaNeural", "en-AU-WilliamNeural"]

/-- The `"voice"` sub-dictionary of the configuration. -/
structure VoiceCfg where
  default : String
  rate : String
  pitch : String
  random_per_worker : Bool
  deriving DecidableEq, Repr

/-- The `"delays"` sub-dictionary of the configuration. -/
structure Delays where
  send_keys_ms : Nat
  claude_boot_s : Nat
  deriving DecidableEq, Repr

/-- The configuration document (structured view; see `DEFAULT_CONFIG` in
server.py lines 55-73 for the fields and defaults). -/
structure Config where
  max_concurrent_workers : Nat
  default_layout : String
  min_pane_width : Nat
  min_pane_height : Nat
  conductor_mode : String
  voice : VoiceCfg
  delays : Delays
  worker_voice_assignments : List (String × String)
  voice_pool_index : Nat
  deriving DecidableEq, Repr

/-- The compiled-in default configuration, structured view. -/
def defaultConfig : Config where
  max_concurrent_workers := 4
  default_layout := "2x2"
  min_pane_width := 80
  min_pane_height := 24
  conductor_mode := "session"
  voice := { default := "en-US-AndrewNeural", rate := "+20%", pitch := "+0Hz",
             random_per_worker := true }
  delays := { send_keys_ms := 800, claude_boot_s := 4 }
  worker_voice_assignments := []
  voice_pool_index := 0

/-- Python `assignments[worker_id]` lookup / `worker_id in assignments` test
(dict keys are unique, so first match is the only match). -/
def lookupAssignment (a : List (String × String)) (w : String) : Option String :=
  (a.find? (fun kv => kv.1 == w)).map Prod.snd

/-- The scan `for i in range(len(VOICE_POOL))` of `get_worker_voice`
(server.py lines 116-123), with the remaining trip count as structural fuel:
returns the first pool voice, starting at offset `i` from the cursor and
wrapping cyclically, that is not in `used`, together with its offset. -/
def scanPool (used : List String) (pool_index : Nat) : Nat → Nat → Option (String × Nat)
  | _, 0 => none
  | i, fuel + 1 =>
    let voice := VOICE_POOL.getD ((pool_index + i) % VOICE_POOL.length) ""
    if used.contains voice then scanPool used pool_index (i + 1) fuel
    else some (voice, i)

/-- `for i in range(len(VOICE_POOL)): ...` started at offset 0. -/
def findUnusedVoice (used : List String) (pool_index : Nat) : Option (String × Nat) :=
  scanPool used pool_index 0 VOICE_POOL.length

/-- Result of `get_worker_voice`: returned voice, configuration after the
call, and whether `save_config` was invoked. -/
structure GwvResult where
  voice : String
  config : Config
  saved : Bool
  deriving DecidableEq, Repr

/-- `get_worker_voice(worker_id)` (server.py lines 98-131).  If per-worker
randomisation is off, the default voice is returned with no state change.
An existing assignment is returned unchanged.  Otherwise the pool is scanned
cyclically from the cursor for an unused voice; if every voice is used, the
voice at the cursor is reused.  Either assigning path appends the new entry,
moves the cursor past the assigned voice modulo the pool size, and saves. -/
def get_worker_voice (config : Config) (worker_id : String) : GwvResult :=
  if !config.voice.random_per_worker then
    { voice := config.voice.default, config := config, saved := false }
  else
    let assignments := config.worker_voice_assignments
    match lookupAssignment assignments worker_id with
    | some v => { voice := v, config := config, saved := false }
    | none =>
      let used_voices := assignments.map Prod.snd
      let pool_index := config.voice_pool_index
      match findUnusedVoice used_voices pool_index with
      | some (voice, i) =>
        { voice := voice
          config := { config with
            worker_voice_assignments := assignments ++ [(worker_id, voice)]
            voice_pool_index := (pool_index + i + 1) % VOICE_POOL.length }
          saved := true }
      | none =>
        let voice := VOICE_POOL.getD (pool_index % VOICE_POOL.length) ""
        { voice := voice
          config := { config with
            worker_voice_assignments := assignments ++ [(worker_id, voice)]
            voice_pool_index := (pool_index + 1) % VOICE_POOL.length }
          saved := true }

/-- Result of `release_worker_voice`: configuration after the call and
whether `save_config` was invoked. -/
structure ReleaseResult where
  config : Config
  saved : Bool
  deriving DecidableEq, Repr

/-- `release_worker_voice(worker_id)` (server.py lines 134-141): when the
worker has an assignment, delete that entry and save; otherwise do nothing. -/
def release_worker_voice (config : Config) (worker_id : String) : ReleaseResult :=
  let assignments := config.worker_voice_assignments
  if assignments.any (fun kv => kv.1 == worker_id) then
    { config := { config with
        worker_voice_assignments := assignments.eraseP (fun kv => kv.1 == worker_id) }
      saved := true }
  else
    { config := config, saved := false }

/-- `reset_voice_assignments()` (server.py lines 2099-2110): clear all
assignments, reset the cursor to 0, save, and return a confirmation string. -/
def reset_voice_assignments (config : Config) : Config × String :=
  ({ config with worker_voice_assignments := [], voice_pool_index := 0 },
   "Voice assignments cleared")

/-! ### Python string primitives

The parsing code uses `str.split` (single-character separators only),
`str.strip`, `str.replace("%", "_")`, `int(...)` and the `in` substring test.
They are modelled over `List Char` with structural recursion. -/

/-- Python `s.split(sep)` for a one-character separator: `"".split(sep)` is
`[""]`, separators at the ends produce empty fields. -/
def splitChar (sep : Char) : List Char → List (List Char)
  | [] => [[]]
  | c :: cs =>
    match splitChar sep cs with
    | [] => [[]]
    | g :: gs => if c = sep then [] :: g :: gs else (c :: g) :: gs

/-- Python `s.split(sep)` on `String`s. -/
def pySplit (s : String) (sep : Char) : List String :=
  (splitChar sep s.data).map String.mk

/-- Python `s.strip()` (restricted to ASCII whitespace, which is all that the
parsed tmux output and issue-id lists contain). -/
def pyStrip (s : String) : String :=
  String.mk (((s.data.dropWhile Char.isWhitespace).reverse.dropWhile Char.isWhitespace).reverse)

/-- Python `pane_id.replace("%", "_")` (both arguments are single chars). -/
def pyReplacePercent (s : String) : String :=
  String.mk (s.data.map (fun c => if c = '%' then '_' else c))

/-- Python `needle in hay` on strings: substring containment. -/
def substrOf (needle hay : String) : Bool :=
  hay.data.tails.any (fun t => needle.data.isPrefixOf t)

/-- Python `int(s)`: optional surrounding whitespace, optional sign, at least
one decimal digit; anything else raises `ValueError` (modelled as `none`). -/
def pyInt? (s : String) : Option Int :=
  let cs := (pyStrip s).data
  let sd : Int × List Char :=
    match cs with
    | '-' :: rest => (-1, rest)
    | '+' :: rest => (1, rest)
    | _ => (1, cs)
  if sd.2 = [] then none
  else if sd.2.all Char.isDigit then
    some (sd.1 * (sd.2.foldl (fun acc c => acc * 10 + (c.toNat - 48)) 0 : Nat))
  else none

/-- Python `int(s)`, with `ValueError` propagating as an exception. -/
def pyIntExc (s : String) : Except String Int :=
  match pyInt? s with
  | some n => .ok n
  | none => .error "ValueError"

/-! ### JSON documents and the persistent configuration store

`load_config` (server.py lines 76-89) parses `config.json` with `json.load`
and merges `DEFAULT_CONFIG` into the result.  JSON values are modelled by
`Json`; the states the backing file can be in are modelled by `FileState`.
The merge loop `if key not in config: config[key] = value` uses Python `in`
and item assignment, whose behaviour (including the `TypeError` raised on
non-dict documents) depends on the runtime type of the parsed document. -/

inductive Json where
  | null
  | bool (b : Bool)
  | num (n : Int)
  | str (s : String)
  | arr (xs : List Json)
  | obj (kvs : List (String × Json))

/-- The entries of `DEFAULT_CONFIG` (server.py lines 55-73), in insertion
order. -/
def DEFAULT_CONFIG_ITEMS : List (String × Json) :=
  [("max_concurrent_workers", .num 4),
   ("default_layout", .str "2x2"),
   ("min_pane_width", .num 80),
   ("min_pane_height", .num 24),
   ("conductor_mode", .str "session"),
   ("voice", .obj [("default", .str "en-US-AndrewNeural"), ("rate", .str "+20%"),
                   ("pitch", .str "+0Hz"), ("random_per_worker", .bool true)]),
   ("delays", .obj [("send_keys_ms", .num 800), ("claude_boot_s", .num 4)]),
   ("worker_voice_assignments", .obj []),
   ("voice_pool_index", .num 0)]

/-- `DEFAULT_CONFIG` as a JSON document. -/
def DEFAULT_CONFIG : Json := .obj DEFAULT_CONFIG_ITEMS

/-- States the backing `config.json` (or a worker state file) can be in.
`unparseable` is text rejected by `json.load` with `JSONDecodeError` (which
the code catches); `undecodable` is a file whose bytes are not valid text, so
reading raises `UnicodeDecodeError` — a `ValueError`, which none of the
`except (json.JSONDecodeError, IOError)` handlers catch. -/
inductive FileState where
  | absent
  | unreadable
  | unparseable
  | undecodable
  | parsed (j : Json)

/-- Python `key in config` for the merge loop: key membership for a dict,
element equality for a list (a string element equal to `key`), substring test
for a string, and `TypeError` for the remaining JSON shapes. -/
def jsonContainsKey (config : Json) (k : String) : Except String Bool :=
  match config with
  | .obj kvs => .ok (kvs.any (fun kv => kv.1 == k))
  | .arr xs => .ok (xs.any (fun x => match x with | .str s => s == k | _ => false))
  | .str s => .ok (substrOf k s)
  | _ => .error "TypeError"

/-- Replace-or-append update of an association list, Python dict item
assignment (existing keys keep their position, new keys are appended). -/
def setKey (kvs : List (String × Json)) (k : String) (v : Json) : List (String × Json) :=
  match kvs with
  | [] => [(k, v)]
  | kv :: rest => if kv.1 == k then (k, v) :: rest else kv :: setKey rest k v

/-- Python `config[key] = value`: item assignment succeeds only on a dict;
lists, strings, numbers, booleans and null raise `TypeError` for a string
key. -/
def jsonSetItem (config : Json) (k : String) (v : Json) : Except String Json :=
  match config with
  | .obj kvs => .ok (.obj (setKey kvs k v))
  | _ => .error "TypeError"

/-- One iteration of the merge loop of `load_config` (server.py lines 83-85):
`if key not in config: config[key] = value`. -/
def mergeStep (cfg : Json) (kv : String × Json) : Except String Json := do
  let present ← jsonContainsKey cfg kv.1
  if present then pure cfg else jsonSetItem cfg kv.1 kv.2

/-- The merge loop of `load_config` (server.py lines 83-85):
`for key, value in DEFAULT_CONFIG.items(): if key not in config: config[key] = value`,
then the merged document is returned. -/
def mergeDefaults (config : Json) : Except String Json :=
  DEFAULT_CONFIG_ITEMS.foldlM mergeStep config

/-- `load_config()` (server.py lines 76-89) as a function of the state of the
backing file.  A missing file, an `IOError`, or a `JSONDecodeError` all fall
through to `DEFAULT_CONFIG.copy()`; undecodable bytes raise; parsed content
goes through the default merge (which raises `TypeError` on non-dict
documents). -/
def load_config (fs : FileState) : Except String Json :=
  match fs with
  | .absent => .ok DEFAULT_CONFIG
  | .unreadable => .ok DEFAULT_CONFIG
  | .unparseable => .ok DEFAULT_CONFIG
  | .undecodable => .error "UnicodeDecodeError"
  | .parsed config => mergeDefaults config

/-! ### tmux command results and the listing operations

Subprocess results are `CmdResult`; the per-worker state files under
`/tmp/claude-code-state/` are an environment function from file name to
`FileState`. -/

/-- The observable outcome of a `subprocess.run(...)` call. -/
structure CmdResult where
  returncode : Int
  stdout : String
  stderr : String
  deriving DecidableEq, Repr

/-- Python `state.get("status")`: works on a dict, raises `AttributeError`
on every other JSON shape. -/
def jsonGet (j : Json) (k : String) : Except String (Option Json) :=
  match j with
  | .obj kvs => .ok ((kvs.find? (fun kv => kv.1 == k)).map Prod.snd)
  | _ => .error "AttributeError"

/-- The `claude_status` lookup shared by `list_panes` and `list_workers`
(server.py lines 557-565 and 1109-1118): a missing file gives no status; an
`IOError` or `JSONDecodeError` is caught (`pass`) leaving no status; reading
undecodable bytes or calling `.get` on a non-dict document raises. -/
def readClaudeStatus (fs : FileState) : Except String (Option Json) :=
  match fs with
  | .absent => .ok none
  | .unreadable => .ok none
  | .unparseable => .ok none
  | .undecodable => .error "UnicodeDecodeError"
  | .parsed j => jsonGet j "status"

/-- One pane dictionary produced by `list_panes` (server.py lines 1120-1130). -/
structure PaneInfo where
  pane_id : String
  pane_index : Int
  window_index : Int
  width : Int
  height : Int
  command : String
  path : String
  active : Bool
  claude_status : Option Json

/-- One line of `tmux list-panes` output (server.py lines 1103-1130): blank
lines and lines with fewer than 8 fields are skipped; the state file keyed by
the sanitised pane id is consulted before the `int(...)` conversions. -/
def parsePaneLine (stateOf : String → FileState) (line : String) :
    Except String (Option PaneInfo) :=
  if line = "" then .ok none
  else
    let parts := pySplit line '|'
    if parts.length ≥ 8 then do
      let pane_id := parts.getD 0 ""
      let status ← readClaudeStatus (stateOf (pyReplacePercent pane_id))
      let pane_index ← pyIntExc (parts.getD 1 "")
      let window_index ← pyIntExc (parts.getD 2 "")
      let width ← pyIntExc (parts.getD 3 "")
      let height ← pyIntExc (parts.getD 4 "")
      pure (some
        { pane_id := pane_id
          pane_index := pane_index
          window_index := window_index
          width := width
          height := height
          command := parts.getD 5 ""
          path := parts.getD 6 ""
          active := parts.getD 7 "" == "1"
          claude_status := status })
    else .ok none

/-- `list_panes(session)` (server.py lines 1078-1132) as a function of the
tmux subprocess result and the state-file environment: a non-zero exit
returns `[]`; otherwise the piped format lines are parsed. -/
def list_panes (res : CmdResult) (stateOf : String → FileState) :
    Except String (List PaneInfo) :=
  if res.returncode ≠ 0 then .ok []
  else
    (pySplit (pyStrip res.stdout) '\n').foldlM (fun acc line => do
      match ← parsePaneLine stateOf line with
      | some p => pure (acc ++ [p])
      | none => pure acc) []

/-- One worker dictionary produced by `list_workers` (server.py lines
567-573). -/
structure WorkerInfo where
  session : String
  created : String
  windows : Int
  attached : Bool
  claude_status : Option Json

/-- One line of `tmux list-sessions` output (server.py lines 550-573): blank
lines and lines with fewer than 4 fields are skipped. -/
def parseWorkerLine (stateOf : String → FileState) (line : String) :
    Except String (Option WorkerInfo) :=
  if line = "" then .ok none
  else
    let parts := pySplit line '|'
    if parts.length ≥ 4 then do
      let name := parts.getD 0 ""
      let status ← readClaudeStatus (stateOf name)
      let windows ← pyIntExc (parts.getD 2 "")
      pure (some
        { session := name
          created := parts.getD 1 ""
          windows := windows
          attached := parts.getD 3 "" == "1"
          claude_status := status })
    else .ok none

/-- `list_workers()` (server.py lines 532-575): a non-zero `tmux
list-sessions` exit returns `[]`. -/
def list_workers (res : CmdResult) (stateOf : String → FileState) :
    Except String (List WorkerInfo) :=
  if res.returncode ≠ 0 then .ok []
  else
    (pySplit (pyStrip res.stdout) '\n').foldlM (fun acc line => do
      match ← parseWorkerLine stateOf line with
      | some wk => pure (acc ++ [wk])
      | none => pure acc) []

/-- `get_worker_status(session)` (server.py lines 578-600) as a function of
the worker's state file: missing file, `IOError` and `JSONDecodeError` all
give `None`; undecodable bytes raise. -/
def get_worker_status (stateFile : FileState) : Except String (Option Json) :=
  match stateFile with
  | .absent => .ok none
  | .unreadable => .ok none
  | .unparseable => .ok none
  | .undecodable => .error "UnicodeDecodeError"
  | .parsed j => .ok (some j)

/-! ### Worker teardown -/

/-- Observable outcome of `kill_worker`: the aggregated messages (joined with
`"; "` for the return value), whether the state file was removed, and the
configuration state after the voice release. -/
structure KillWorkerResult where
  messages : List String
  state_file_removed : Bool
  config : Config
  voice_release_saved : Bool

/-- `kill_worker(session, cleanup_worktree, project_dir)` (server.py lines
470-529) as a function of the `tmux kill-session` result, whether the state
file exists, the loaded configuration, and — for the optional worktree
cleanup — whether the worktree exists and the `git worktree remove` result.
The worktree path `Path(project_dir)/.worktrees/session` is rendered with
`/` separators. -/
def kill_worker (killRes : CmdResult) (state_exists : Bool) (config : Config)
    (session : String) (cleanup_worktree : Bool) (project_dir : Option String)
    (worktree_exists : Bool) (removeRes : CmdResult) : KillWorkerResult :=
  let messages :=
    if killRes.returncode = 0 then ["Killed session: " ++ session]
    else ["Session " ++ session ++ " not found or already killed"]
  let messages := if state_exists then messages ++ ["Removed state file"] else messages
  let rel := release_worker_voice config session
  let messages :=
    if cleanup_worktree then
      match project_dir with
      | none => messages ++ ["Warning: project_dir required for worktree cleanup"]
      | some pd =>
        if worktree_exists then
          if removeRes.returncode = 0 then
            messages ++ ["Removed worktree: " ++ pd ++ "/.worktrees/" ++ session]
          else
            messages ++ ["Failed to remove worktree: " ++ pyStrip removeRes.stderr]
        else messages ++ ["Worktree not found: " ++ pd ++ "/.worktrees/" ++ session]
    else messages
  { messages := messages
    state_file_removed := state_exists
    config := rel.config
    voice_release_saved := rel.saved }

/-- The string `kill_worker` actually returns: `"; ".join(messages)`. -/
def kill_worker_return (killRes : CmdResult) (state_exists : Bool) (config : Config)
    (session : String) (cleanup_worktree : Bool) (project_dir : Option String)
    (worktree_exists : Bool) (removeRes : CmdResult) : String :=
  String.intercalate "; "
    (kill_worker killRes state_exists config session cleanup_worktree project_dir
      worktree_exists removeRes).messages

/-! ### The batch spawner -/

/-- Abstracted outcome of one `smart_spawn(issue_id, ...)` call: either a
result dict with an `"error"` key, or a successful spawn with its pane id and
placement action. -/
inductive SpawnOutcome where
  | ok (pane_id : Option String) (placement_action : Option String)
  | err (msg : String)

/-- One per-worker entry of the wave summary (server.py lines 1430-1440);
failed entries carry `error`, spawned entries carry `pane_id`/`placement`. -/
structure WaveWorkerResult where
  issue_id : String
  status : String
  error : Option String
  pane_id : Option String
  placement : Option String
  deriving DecidableEq, Repr

/-- The return dictionary of `smart_spawn_wave`: the two error shapes and the
aggregate summary. -/
inductive WaveReturn where
  | errorNoIds (msg : String)
  | errorTooMany (msg : String) (requested : Nat) (max : Nat)
  | summary (total spawned failed : Nat) (workers : List WaveWorkerResult)
  deriving DecidableEq, Repr

/-- `ids = [i.strip() for i in issue_ids.split(",") if i.strip()]`
(server.py line 1405). -/
def parseIds (issue_ids : String) : List String :=
  ((pySplit issue_ids ',').map pyStrip).filter (fun s => s ≠ "")

/-- The over-ceiling error message (server.py lines 1410-1415). -/
def waveCapMsg (requested maxWorkers : Nat) : String :=
  "Requested " ++ toString requested ++ " workers but max_concurrent_workers is "
    ++ toString maxWorkers ++ ". Increase with set_config or reduce issue count."

/-- `smart_spawn_wave(issue_ids, ...)` (server.py lines 1402-1447), with
`max_workers = config.get("max_concurrent_workers", 4)` passed in and the
per-worker `smart_spawn` call abstracted as `spawn`.  The second component
lists the issue ids for which `smart_spawn` was actually invoked, in order —
the observable spawning side effects. -/
def smart_spawn_wave (max_workers : Nat) (issue_ids : String)
    (spawn : String → SpawnOutcome) : WaveReturn × List String :=
  let ids := parseIds issue_ids
  if ids = [] then (.errorNoIds "No issue IDs provided", [])
  else if ids.length > max_workers then
    (.errorTooMany (waveCapMsg ids.length max_workers) ids.length max_workers, [])
  else
    let results := ids.map (fun issue_id =>
      match spawn issue_id with
      | .err msg =>
        { issue_id := issue_id, status := "failed", error := some msg,
          pane_id := none, placement := none }
      | .ok pid act =>
        { issue_id := issue_id, status := "spawned", error := none,
          pane_id := pid, placement := act })
    let spawned := (results.filter (fun r => r.status == "spawned")).length
    let failed := (results.filter (fun r => r.status == "failed")).length
    (.summary ids.length spawned failed results, ids)

/-! ### The audio lock admission policies

The lock section of `speak` (server.py lines 414-434).  `lockBusy n` tells
whether the n-th `fcntl.flock(..., LOCK_EX | LOCK_NB)` attempt would find the
lock held by someone else (raising `BlockingIOError`). -/

/-- Outcome of the lock phase: whether the lock was acquired, how many flock
attempts were made, total milliseconds slept between attempts, and whether
the call aborted with "Audio busy, skipped". -/
structure LockPhaseResult where
  acquired : Bool
  attempts : Nat
  slept_ms : Nat
  busy : Bool
  deriving DecidableEq, Repr

/-- The priority retry loop `for _ in range(50)` (server.py lines 420-428):
each failed non-blocking attempt sleeps 0.1 s; a successful attempt breaks;
50 failures fall through to the `else: pass` (proceed without the lock). -/
def priorityTryLoop (lockBusy : Nat → Bool) (start : Nat) : Nat → Bool × Nat × Nat
  | 0 => (false, 0, 0)
  | fuel + 1 =>
    if lockBusy start then
      let r := priorityTryLoop lockBusy (start + 1) fuel
      (r.1, r.2.1 + 1, r.2.2 + 100)
    else (true, 1, 0)

/-- The lock phase of `speak` (server.py lines 414-434): priority admission
retries up to 50 times (~5 s) and proceeds anyway on failure; best-effort
admission tries exactly once and returns "busy" if the lock is held. -/
def speak_lock_phase (priority : Bool) (lockBusy : Nat → Bool) : LockPhaseResult :=
  if priority then
    let r := priorityTryLoop lockBusy 0 50
    { acquired := r.1, attempts := r.2.1, slept_ms := r.2.2, busy := false }
  else
    if lockBusy 0 then
      { acquired := false, attempts := 1, slept_ms := 0, busy := true }
    else
      { acquired := true, attempts := 1, slept_ms := 0, busy := false }

end Conductor

namespace Conductor

theorem sortByAreaDesc_head : ∀ ps : List Pane, (sortByAreaDesc ps).head? = firstMax ps := by
  intro ps
  induction ps with
  | nil => rfl
  | cons p ps ih =>
    simp only [sortByAreaDesc, firstMax]
    cases h : sortByAreaDesc ps with
    | nil =>
      rw [h] at ih
      simp only [List.head?] at ih
      rw [← ih]
      rfl
    | cons q qs =>
      rw [h] at ih
      simp only [List.head?] at ih
      rw [← ih]
      simp only [insertDesc]
      split <;> rfl

theorem firstMax_eq_none : ∀ ps : List Pane, firstMax ps = none → ps = [] := by
  intro ps h
  cases ps with
  | nil => rfl
  | cons p ps =>
    simp only [firstMax] at h
    split at h
    · simp at h
    · split at h <;> simp at h

theorem firstMax_spec : ∀ (ps : List Pane) (m : Pane), firstMax ps = some m →
    ∃ (i : Nat) (hi : i < ps.length), ps.get ⟨i, hi⟩ = m ∧
      (∀ (j : Nat) (hj : j < ps.length), paneArea (ps.get ⟨j, hj⟩) ≤ paneArea m) ∧
      (∀ (j : Nat) (hj : j < ps.length), paneArea (ps.get ⟨j, hj⟩) = paneArea m → i ≤ j) := by
  intro ps
  induction ps with
  | nil => intro m h; simp [firstMax] at h
  | cons p ps ih =>
    intro m h
    simp only [firstMax] at h
    split at h
    next hfm =>
      have hps : ps = [] := firstMax_eq_none ps hfm
      subst hps
      have hpm : p = m := by simpa using h
      subst hpm
      refine ⟨0, by simp, rfl, ?_, ?_⟩
      · intro j hj
        have hj0 : j = 0 := by simpa using Nat.lt_one_iff.mp (by simpa using hj)
        subst hj0
        simp
      · intro j hj _
        exact Nat.zero_le j
    next m' hfm =>
      obtain ⟨i, hi, hget, hmax, hfirst⟩ := ih m' hfm
      split at h
      next hc =>
        have hm : m' = m := by simpa using h
        subst hm
        refine ⟨i + 1, by simpa using Nat.succ_lt_succ hi, by simpa using hget, ?_, ?_⟩
        · intro j hj
          cases j with
          | zero => simpa using Nat.le_of_lt hc
          | succ j' => exact hmax j' (by simpa using Nat.lt_of_succ_lt_succ hj)
        · intro j hj hEq
          cases j with
          | zero =>
            simp only [List.get] at hEq
            omega
          | succ j' =>
            exact Nat.succ_le_succ
              (hfirst j' (by simpa using Nat.lt_of_succ_lt_succ hj) (by simpa using hEq))
      next hc =>
        have hm : p = m := by simpa using h
        subst hm
        refine ⟨0, by simp, rfl, ?_, ?_⟩
        · intro j hj
          cases j with
          | zero => simp
          | succ j' =>
            have h1 := hmax j' (by simpa using Nat.lt_of_succ_lt_succ hj)
            have h2 : paneArea m' ≤ paneArea p := by omega
            simpa using Nat.le_trans h1 h2
        · intro j hj _
          exact Nat.zero_le j

theorem splitLoop_cons_h (min_w min_h : Nat) (p : Pane) (rest : List Pane)
    (hw : min_w ≤ p.width / 2) (hh : min_h ≤ p.height) :
    (splitLoop min_w min_h (p :: rest)).action = SplitAction.split_h ∧
    (splitLoop min_w min_h (p :: rest)).target_pane = some p.pane_id := by
  simp only [splitLoop]
  rw [if_pos ⟨hw, hh⟩]
  exact ⟨rfl, rfl⟩

/-- Claim C1 (amended): when the largest pane by area — ties broken by first
position in the input list — has width at least twice the minimum width and
height at least the minimum height, `_find_best_split` with no explicit
target decides `split_h` targeting that pane.  (The original claim, quantifying
over *any* qualifying pane, fails: see the counterexample.) -/
theorem find_best_split_largest_h (ps : List Pane) (min_w min_h : Nat)
    (i : Nat) (hi : i < ps.length)
    (hmax : ∀ (j : Nat) (hj : j < ps.length),
      paneArea (ps.get ⟨j, hj⟩) ≤ paneArea (ps.get ⟨i, hi⟩))
    (hfirst : ∀ (j : Nat) (hj : j < ps.length),
      paneArea (ps.get ⟨j, hj⟩) = paneArea (ps.get ⟨i, hi⟩) → i ≤ j)
    (hw : 2 * min_w ≤ (ps.get ⟨i, hi⟩).width)
    (hh : min_h ≤ (ps.get ⟨i, hi⟩).height) :
    (find_best_split ps min_w min_h none).action = SplitAction.split_h ∧
    (find_best_split ps min_w min_h none).target_pane = some (ps.get ⟨i, hi⟩).pane_id := by
  have hne : ps ≠ [] := by
    intro h
    rw [h] at hi
    simp at hi
  -- The head of the sorted candidate list is exactly the hypothesised pane.
  cases hfm : firstMax ps with
  | none =>
    exact absurd (firstMax_eq_none ps hfm) hne
  | some m =>
    obtain ⟨i', hi', hget', hmax', hfirst'⟩ := firstMax_spec ps m hfm
    have hab : paneArea (ps.get ⟨i, hi⟩) = paneArea m := by
      have h1 := hmax' i hi
      have h2 := hmax i' hi'
      rw [hget'] at h2
      omega
    have hii' : i = i' := by
      have h3 : i ≤ i' := hfirst i' hi' (by rw [hget', ← hab])
      have h4 : i' ≤ i := hfirst' i hi hab
      omega
    have hm : ps.get ⟨i, hi⟩ = m := by
      rw [← hget']
      congr 1
      exact Fin.ext hii'
    cases hs : sortByAreaDesc ps with
    | nil =>
      have := sortByAreaDesc_head ps
      rw [hs, hfm] at this
      simp at this
    | cons a rest =>
      have hhead := sortByAreaDesc_head ps
      rw [hs, hfm] at hhead
      have ham : a = m := by simpa using hhead
      subst ham
      have hstep : find_best_split ps min_w min_h none = splitLoop min_w min_h (a :: rest) := by
        simp only [find_best_split]
        rw [if_neg hne, hs]
      rw [hstep, ← hm]
      exact splitLoop_cons_h min_w min_h _ rest
        (by
          rw [Nat.le_div_iff_mul_le (by omega)]
          omega)
        hh

/-- Claim C1 witness: a concrete pane list whose largest pane (the first one)
is wide and tall enough, decided as a horizontal split of that pane. -/
theorem find_best_split_largest_h_witness :
    (find_best_split [⟨"%4", 160, 48⟩, ⟨"%5", 80, 24⟩] 80 24 none).action
        = SplitAction.split_h ∧
    (find_best_split [⟨"%4", 160, 48⟩, ⟨"%5", 80, 24⟩] 80 24 none).target_pane
        = some "%4" := by
  have h := find_best_split_largest_h [⟨"%4", 160, 48⟩, ⟨"%5", 80, 24⟩] 80 24 0
    (by decide)
    (by decide)
    (by decide)
    (by decide)
    (by decide)
  exact h

/-- Claim C1 counterexample: the claim as stated is false.  In the pane list
`[%0: 100x100, %1: 120x30]` with minimum size 60x24, pane `%1` satisfies
width ≥ 2*min_width and height ≥ min_height (and is the largest — indeed the
only — such pane), yet the decision is a *vertical* split of `%0`: the loop
reaches the larger pane `%0` first and its vertical-split test succeeds. -/
theorem find_best_split_claim_false :
    (∃ p ∈ ([⟨"%0", 100, 100⟩, ⟨"%1", 120, 30⟩] : List Pane),
        2 * 60 ≤ p.width ∧ 24 ≤ p.height) ∧
    ¬ ((find_best_split [⟨"%0", 100, 100⟩, ⟨"%1", 120, 30⟩] 60 24 none).action
          = SplitAction.split_h ∧
       (find_best_split [⟨"%0", 100, 100⟩, ⟨"%1", 120, 30⟩] 60 24 none).target_pane
          = some "%1") := by
  constructor
  · exact ⟨⟨"%1", 120, 30⟩, by decide, by decide, by decide⟩
  · intro hcl
    have : (find_best_split [⟨"%0", 100, 100⟩, ⟨"%1", 120, 30⟩] 60 24 none).action
        = SplitAction.split_v := by decide
    rw [hcl.1] at this
    exact absurd this (by decide)

theorem scanPool_some : ∀ (fuel i : Nat) (used : List String) (idx : Nat) (v : String) (j : Nat),
    scanPool used idx i fuel = some (v, j) → used.contains v = false := by
  intro fuel
  induction fuel with
  | zero => intro i used idx v j h; simp [scanPool] at h
  | succ fuel ih =>
    intro i used idx v j h
    simp only [scanPool] at h
    split at h
    · exact ih (i + 1) used idx v j h
    · next hc =>
      have hv : VOICE_POOL.getD ((idx + i) % VOICE_POOL.length) "" = v := by
        simpa using congrArg (fun o => (Option.map Prod.fst o).getD "") h
      rw [← hv]
      exact Bool.eq_false_iff.mpr hc

theorem scanPool_none : ∀ (fuel i : Nat) (used : List String) (idx : Nat),
    scanPool used idx i fuel = none → ∀ k, i ≤ k → k < i + fuel →
      used.contains (VOICE_POOL.getD ((idx + k) % VOICE_POOL.length) "") = true := by
  intro fuel
  induction fuel with
  | zero => intro i used idx _ k hk1 hk2; omega
  | succ fuel ih =>
    intro i used idx h k hk1 hk2
    simp only [scanPool] at h
    split at h
    · next hc =>
      by_cases hk : k = i
      · subst hk; exact hc
      · exact ih (i + 1) used idx h k (by omega) (by omega)
    · simp at h

theorem pool_subset_of_findUnused_none (used : List String) (idx : Nat)
    (h : findUnusedVoice used idx = none) : ∀ x ∈ VOICE_POOL, x ∈ used := by
  intro x hx
  obtain ⟨⟨j, hj⟩, hget⟩ := List.mem_iff_get.mp hx
  have hlen : VOICE_POOL.length = 14 := rfl
  -- choose the scan offset that lands on position j of the pool
  have hk : (idx + (j + 14 - idx % 14) % 14) % VOICE_POOL.length = j := by
    rw [hlen]
    omega
  have hscan := scanPool_none VOICE_POOL.length 0 used idx h
    ((j + 14 - idx % 14) % 14) (Nat.zero_le _) (by rw [hlen]; omega)
  rw [hk] at hscan
  have hgd : VOICE_POOL.getD j "" = x := by
    rw [List.getD_eq_getElem _ _ hj]
    simpa [List.get] using hget
  rw [hgd] at hscan
  simpa using hscan

theorem VOICE_POOL_nodup : VOICE_POOL.Nodup := by decide

/-- Claim C4: with per-worker randomisation on, a fresh call to
`get_worker_voice` while the assignment map has fewer entries than the
14-voice pool never hands out a voice already assigned to another worker (the
new entry is simply appended), and distinctness of assigned voices is
preserved. -/
theorem get_worker_voice_fresh_unique (c : Config) (w : String)
    (hrand : c.voice.random_per_worker = true)
    (hfresh : lookupAssignment c.worker_voice_assignments w = none)
    (hlen : c.worker_voice_assignments.length < VOICE_POOL.length) :
    (get_worker_voice c w).voice ∉ c.worker_voice_assignments.map Prod.snd ∧
    (get_worker_voice c w).config.worker_voice_assignments
      = c.worker_voice_assignments ++ [(w, (get_worker_voice c w).voice)] ∧
    ((c.worker_voice_assignments.map Prod.snd).Nodup →
      ((get_worker_voice c w).config.worker_voice_assignments.map Prod.snd).Nodup) := by
  have hscan : ∃ v i,
      findUnusedVoice (c.worker_voice_assignments.map Prod.snd) c.voice_pool_index
        = some (v, i) := by
    cases hfu : findUnusedVoice (c.worker_voice_assignments.map Prod.snd)
        c.voice_pool_index with
    | none =>
      exfalso
      have hsub := pool_subset_of_findUnused_none _ _ hfu
      have hle := (VOICE_POOL_nodup.subperm hsub).length_le
      rw [List.length_map] at hle
      omega
    | some vi => exact ⟨vi.1, vi.2, rfl⟩
  obtain ⟨v, i, hfu⟩ := hscan
  have hvnot : v ∉ c.worker_voice_assignments.map Prod.snd := by
    have h2 := scanPool_some VOICE_POOL.length 0 _ _ v i hfu
    intro hmem
    rw [List.contains, List.elem_eq_mem] at h2
    simp [hmem] at h2
  have hred : get_worker_voice c w =
      { voice := v
        config := { c with
          worker_voice_assignments := c.worker_voice_assignments ++ [(w, v)]
          voice_pool_index := (c.voice_pool_index + i + 1) % VOICE_POOL.length }
        saved := true } := by
    simp only [get_worker_voice, hrand, Bool.not_true, Bool.false_eq_true, if_false, hfresh,
      hfu]
  refine ⟨by rw [hred]; exact hvnot, by rw [hred], ?_⟩
  intro hnd
  rw [hred]
  simp only [List.map_append, List.map_cons, List.map_nil]
  rw [List.nodup_append]
  refine ⟨hnd, List.nodup_singleton v, ?_⟩
  intro x hxl hxr
  simp only [List.mem_singleton] at hxr
  subst hxr
  exact hvnot hxl

/-- Claim C4 witness: starting from the default configuration (empty
assignment map), a fresh worker gets a voice not assigned to anyone. -/
theorem get_worker_voice_fresh_unique_witness :
    (get_worker_voice defaultConfig "BD-1").voice ∉
      defaultConfig.worker_voice_assignments.map Prod.snd ∧
    (get_worker_voice defaultConfig "BD-1").config.worker_voice_assignments
      = defaultConfig.worker_voice_assignments
        ++ [("BD-1", (get_worker_voice defaultConfig "BD-1").voice)] := by
  have h := get_worker_voice_fresh_unique defaultConfig "BD-1" rfl rfl (by decide)
  exact ⟨h.1, h.2.1⟩

/-- Claim C5: `get_worker_voice` is idempotent for a worker that already holds
an assignment — a second call returns the same voice as the first, leaves the
assignment map and the pool cursor unchanged, and does not save the
configuration. -/
theorem get_worker_voice_idempotent (c : Config) (w v : String)
    (h : lookupAssignment c.worker_voice_assignments w = some v) :
    (get_worker_voice (get_worker_voice c w).config w).voice
      = (get_worker_voice c w).voice ∧
    (get_worker_voice (get_worker_voice c w).config w).config.worker_voice_assignments
      = (get_worker_voice c w).config.worker_voice_assignments ∧
    (get_worker_voice (get_worker_voice c w).config w).config.voice_pool_index
      = (get_worker_voice c w).config.voice_pool_index ∧
    (get_worker_voice (get_worker_voice c w).config w).saved = false := by
  cases hr : c.voice.random_per_worker with
  | false =>
    have h1 : get_worker_voice c w = { voice := c.voice.default, config := c, saved := false } := by
      simp only [get_worker_voice, hr, Bool.not_false, if_true]
    rw [h1]
    rw [h1]
    exact ⟨rfl, rfl, rfl, rfl⟩
  | true =>
    have h1 : get_worker_voice c w = { voice := v, config := c, saved := false } := by
      simp only [get_worker_voice, hr, Bool.not_true, Bool.false_eq_true, if_false, h]
    rw [h1]
    rw [h1]
    exact ⟨rfl, rfl, rfl, rfl⟩

/-- Claim C5 witness: with `w1` already assigned `en-US-AriaNeural`, the
second call is a no-op returning the same voice. -/
theorem get_worker_voice_idempotent_witness :
    (get_worker_voice
        (get_worker_voice
          { defaultConfig with
            worker_voice_assignments := [("w1", "en-US-AriaNeural")] } "w1").config
        "w1").voice
      = (get_worker_voice
          { defaultConfig with
            worker_voice_assignments := [("w1", "en-US-AriaNeural")] } "w1").voice ∧
    (get_worker_voice
        (get_worker_voice
          { defaultConfig with
            worker_voice_assignments := [("w1", "en-US-AriaNeural")] } "w1").config
        "w1").saved = false := by
  have h := get_worker_voice_idempotent
    { defaultConfig with worker_voice_assignments := [("w1", "en-US-AriaNeural")] }
    "w1" "en-US-AriaNeural" (by decide)
  exact ⟨h.1, h.2.2.2⟩

/-- Claim C9: whenever the voice subsystem saves the configuration after an
assignment (fresh or pool-exhausted reuse in `get_worker_voice`) or after
`reset_voice_assignments`, the persisted `voice_pool_index` is a valid index
into the 14-entry pool. -/
theorem voice_pool_index_in_range (c : Config) (w : String)
    (h : (get_worker_voice c w).saved = true) :
    (get_worker_voice c w).config.voice_pool_index < VOICE_POOL.length ∧
    (reset_voice_assignments c).1.voice_pool_index < VOICE_POOL.length := by
  refine ⟨?_, ?_⟩
  case refine_2 =>
    show (0 : Nat) < VOICE_POOL.length
    decide
  have hpos : 0 < VOICE_POOL.length := by decide
  simp only [get_worker_voice] at h ⊢
  split at h
  · simp at h
  · split at h
    · simp at h
    · split at h <;> split <;> simp_all <;> exact Nat.mod_lt _ hpos

/-- Claim C9 witness: a fresh assignment from the default configuration saves
with the cursor at 1, inside the pool bounds. -/
theorem voice_pool_index_in_range_witness :
    (get_worker_voice defaultConfig "BD-2").saved = true ∧
    (get_worker_voice defaultConfig "BD-2").config.voice_pool_index < VOICE_POOL.length := by
  refine ⟨by decide, ?_⟩
  exact (voice_pool_index_in_range defaultConfig "BD-2" (by decide)).1

theorem mem_eraseP_keep {α : Type} (p : α → Bool) :
    ∀ (l : List α) (a : α), a ∈ l → p a = false → a ∈ l.eraseP p := by
  intro l
  induction l with
  | nil => intro a ha _; simp at ha
  | cons x xs ih =>
    intro a ha hpa
    rw [List.eraseP_cons]
    cases hpx : p x with
    | true =>
      simp only [cond_true]
      rcases List.mem_cons.mp ha with hax | haxs
      · subst hax; rw [hpa] at hpx; exact absurd hpx (by simp)
      · exact haxs
    | false =>
      simp only [cond_false]
      rcases List.mem_cons.mp ha with hax | haxs
      · subst hax; exact List.mem_cons_self a _
      · exact List.mem_cons_of_mem x (ih a haxs hpa)

/-- Claim C10: `release_worker_voice` for an unassigned worker performs no
write at all; for an assigned worker it deletes exactly that worker's entry
and saves, leaving `voice_pool_index`, every other worker's assignment and
every other configuration field unchanged. -/
theorem release_worker_voice_frame (c : Config) (w : String) :
    (lookupAssignment c.worker_voice_assignments w = none →
      release_worker_voice c w = { config := c, saved := false }) ∧
    (∀ v, lookupAssignment c.worker_voice_assignments w = some v →
      (release_worker_voice c w).saved = true ∧
      (release_worker_voice c w).config.worker_voice_assignments
        = c.worker_voice_assignments.eraseP (fun kv => kv.1 == w) ∧
      (release_worker_voice c w).config.worker_voice_assignments.length + 1
        = c.worker_voice_assignments.length ∧
      (∀ kv ∈ c.worker_voice_assignments, kv.1 ≠ w →
        kv ∈ (release_worker_voice c w).config.worker_voice_assignments) ∧
      (release_worker_voice c w).config.voice_pool_index = c.voice_pool_index ∧
      (release_worker_voice c w).config.max_concurrent_workers = c.max_concurrent_workers ∧
      (release_worker_voice c w).config.default_layout = c.default_layout ∧
      (release_worker_voice c w).config.min_pane_width = c.min_pane_width ∧
      (release_worker_voice c w).config.min_pane_height = c.min_pane_height ∧
      (release_worker_voice c w).config.conductor_mode = c.conductor_mode ∧
      (release_worker_voice c w).config.voice = c.voice ∧
      (release_worker_voice c w).config.delays = c.delays) := by
  constructor
  · intro hnone
    have hfind : c.worker_voice_assignments.find? (fun kv => kv.1 == w) = none :=
      Option.map_eq_none'.mp hnone
    have hany : c.worker_voice_assignments.any (fun kv => kv.1 == w) = false := by
      rw [List.any_eq_false]
      intro kv hkv
      have := List.find?_eq_none.mp hfind kv hkv
      simpa using this
    simp only [release_worker_voice, hany, Bool.false_eq_true, if_false]
  · intro v hsome
    obtain ⟨kv, hfind⟩ : ∃ kv, c.worker_voice_assignments.find? (fun x => x.1 == w)
        = some kv := by
      cases hf : c.worker_voice_assignments.find? (fun x => x.1 == w) with
      | none => rw [lookupAssignment, hf] at hsome; simp at hsome
      | some kv => exact ⟨kv, rfl⟩
    have hkvmem : kv ∈ c.worker_voice_assignments := List.mem_of_find?_eq_some hfind
    have hkvp := List.find?_some hfind
    have hany : c.worker_voice_assignments.any (fun kv => kv.1 == w) = true :=
      List.any_eq_true.mpr ⟨kv, hkvmem, hkvp⟩
    have hred : release_worker_voice c w =
        { config := { c with
            worker_voice_assignments :=
              c.worker_voice_assignments.eraseP (fun kv => kv.1 == w) }
          saved := true } := by
      simp only [release_worker_voice, hany, if_true]
    rw [hred]
    refine ⟨rfl, rfl, ?_, ?_, rfl, rfl, rfl, rfl, rfl, rfl, rfl, rfl⟩
    · exact List.length_eraseP_add_one hkvmem hkvp
    · intro kv' hkv' hne
      exact mem_eraseP_keep _ _ kv' hkv' (by simpa using hne)

/-- Claim C10 witness: releasing `w1` from a two-worker map removes exactly
that entry, keeps `w2`, keeps the cursor, and saves; releasing an id with no
assignment leaves the configuration untouched without saving. -/
theorem release_worker_voice_frame_witness :
    (release_worker_voice
        { defaultConfig with
          worker_voice_assignments :=
            [("w1", "en-US-AriaNeural"), ("w2", "en-US-GuyNeural")]
          voice_pool_index := 2 } "w1").config.worker_voice_assignments
      = [("w2", "en-US-GuyNeural")] ∧
    (release_worker_voice
        { defaultConfig with
          worker_voice_assignments :=
            [("w1", "en-US-AriaNeural"), ("w2", "en-US-GuyNeural")]
          voice_pool_index := 2 } "w1").config.voice_pool_index = 2 ∧
    (release_worker_voice
        { defaultConfig with
          worker_voice_assignments :=
            [("w1", "en-US-AriaNeural"), ("w2", "en-US-GuyNeural")]
          voice_pool_index := 2 } "w1").saved = true ∧
    release_worker_voice defaultConfig "ghost" = { config := defaultConfig, saved := false } := by
  have h := release_worker_voice_frame
    { defaultConfig with
      worker_voice_assignments := [("w1", "en-US-AriaNeural"), ("w2", "en-US-GuyNeural")]
      voice_pool_index := 2 } "w1"
  have h2 := (h.2 "en-US-AriaNeural" (by decide))
  refine ⟨h2.2.1.trans (by decide), h2.2.2.2.2.1, h2.1, ?_⟩
  exact (release_worker_voice_frame defaultConfig "ghost").1 rfl

theorem mergeStep_obj (kvs : List (String × Json)) (kv : String × Json) :
    ∃ kvs', mergeStep (Json.obj kvs) kv = .ok (.obj kvs') := by
  by_cases h : kvs.any (fun x => x.1 == kv.1) = true
  · refine ⟨kvs, ?_⟩
    simp only [mergeStep, jsonContainsKey, h]
    rfl
  · refine ⟨setKey kvs kv.1 kv.2, ?_⟩
    simp only [Bool.not_eq_true] at h
    simp only [mergeStep, jsonContainsKey, jsonSetItem, h]
    rfl

theorem foldlM_mergeStep_obj : ∀ (defs : List (String × Json)) (kvs : List (String × Json)),
    ∃ kvs', List.foldlM mergeStep (Json.obj kvs) defs = .ok (.obj kvs') := by
  intro defs
  induction defs with
  | nil => intro kvs; exact ⟨kvs, rfl⟩
  | cons d ds ih =>
    intro kvs
    obtain ⟨kvs1, h1⟩ := mergeStep_obj kvs d
    obtain ⟨kvs2, h2⟩ := ih kvs1
    refine ⟨kvs2, ?_⟩
    rw [List.foldlM_cons, h1]
    exact h2

/-- Claim C2 counterexample: the claim as stated is false.  A backing file
holding the well-formed JSON document `[]` (a top-level array) makes
`load_config` raise: the merge loop's `config[key] = value` on a list raises
an uncaught `TypeError`, so an exception propagates instead of a document
being returned. -/
theorem load_config_raises_on_json_array :
    load_config (FileState.parsed (Json.arr [])) = Except.error "TypeError" := rfl

/-- Claim C2 (amended): `load_config` returns a document — never an
exception — whenever the backing file is absent, unreadable (`IOError`), not
valid JSON (`JSONDecodeError`), or parses to a JSON *object*; and on a
missing file it returns exactly the compiled-in default document.  (Parseable
non-object JSON shapes raise `TypeError`; undecodable bytes raise
`UnicodeDecodeError`: see the counterexample.) -/
theorem load_config_total (fs : FileState)
    (h : fs = .absent ∨ fs = .unreadable ∨ fs = .unparseable ∨
         ∃ kvs, fs = .parsed (.obj kvs)) :
    (∃ j, load_config fs = .ok j) ∧ load_config .absent = .ok DEFAULT_CONFIG := by
  refine ⟨?_, rfl⟩
  rcases h with h | h | h | ⟨kvs, h⟩ <;> subst h
  · exact ⟨DEFAULT_CONFIG, rfl⟩
  · exact ⟨DEFAULT_CONFIG, rfl⟩
  · exact ⟨DEFAULT_CONFIG, rfl⟩
  · obtain ⟨kvs', h'⟩ := foldlM_mergeStep_obj DEFAULT_CONFIG_ITEMS kvs
    exact ⟨.obj kvs', h'⟩

/-- Claim C2 witness: a stored empty JSON object loads fine (and a missing
file loads the exact defaults). -/
theorem load_config_total_witness :
    (∃ j, load_config (.parsed (.obj [])) = .ok j) ∧
    load_config .absent = .ok DEFAULT_CONFIG :=
  load_config_total _ (Or.inr (Or.inr (Or.inr ⟨[], rfl⟩)))

/-- Claim C3 counterexample: the claim as stated is false.  `list_panes` and
`list_workers` return a bare empty list when the tmux subprocess fails
(non-zero exit), exactly the value a successful call with no output lines
produces, and `get_worker_status` returns a bare `None` when the worker's
state file is missing — none of these failure results carries an error
field. -/
theorem listing_failure_indistinguishable :
    list_panes ⟨1, "", "no server running"⟩ (fun _ => FileState.absent)
      = list_panes ⟨0, "", ""⟩ (fun _ => FileState.absent) ∧
    list_panes ⟨1, "", "no server running"⟩ (fun _ => FileState.absent) = .ok [] ∧
    list_workers ⟨1, "", "no server running"⟩ (fun _ => FileState.absent)
      = list_workers ⟨0, "", ""⟩ (fun _ => FileState.absent) ∧
    list_workers ⟨1, "", "no server running"⟩ (fun _ => FileState.absent) = .ok [] ∧
    get_worker_status FileState.absent = .ok none :=
  ⟨rfl, rfl, rfl, rfl, rfl⟩

/-- Claim C3 (amended): not every public operation reports failure through an
explicit error field: on any failing tmux invocation `list_panes` and
`list_workers` return the empty list (indistinguishable from an empty
success), and `get_worker_status` returns `None` for a missing or
malformed state file.  (Other operations, e.g. `smart_spawn_wave` and
`watch_pane`, do return explicit `error` results.) -/
theorem listing_failures_empty (res : CmdResult) (stateOf : String → FileState)
    (h : res.returncode ≠ 0) :
    list_panes res stateOf = .ok [] ∧
    list_workers res stateOf = .ok [] ∧
    get_worker_status .absent = .ok none ∧
    get_worker_status .unparseable = .ok none := by
  refine ⟨?_, ?_, rfl, rfl⟩ <;> simp [list_panes, list_workers, h]

/-- Claim C3 witness: the failing tmux call with exit code 1. -/
theorem listing_failures_empty_witness :
    list_panes ⟨1, "", "err"⟩ (fun _ => FileState.absent) = .ok [] ∧
    list_workers ⟨1, "", "err"⟩ (fun _ => FileState.absent) = .ok [] ∧
    get_worker_status .absent = .ok none ∧
    get_worker_status .unparseable = .ok none :=
  listing_failures_empty ⟨1, "", "err"⟩ (fun _ => FileState.absent) (by decide)

/-- Claim C6: when the comma-separated id list parses to more ids than the
`max_concurrent_workers` ceiling, `smart_spawn_wave` returns the error result
carrying the requested count and the maximum, and invokes `smart_spawn` for
no id at all — no placement, split, window creation or worker launch
happens. -/
theorem smart_spawn_wave_cap (max_workers : Nat) (issue_ids : String)
    (spawn : String → SpawnOutcome)
    (h : (parseIds issue_ids).length > max_workers) :
    smart_spawn_wave max_workers issue_ids spawn
      = (.errorTooMany (waveCapMsg (parseIds issue_ids).length max_workers)
          (parseIds issue_ids).length max_workers, []) := by
  have hne : ¬ parseIds issue_ids = [] := by
    intro he
    rw [he] at h
    simp at h
  simp only [smart_spawn_wave]
  rw [if_neg hne, if_pos h]

/-- Claim C6 witness: 5 requested ids against ceiling 4 is rejected with
`requested = 5, max = 4` and zero spawn calls. -/
theorem smart_spawn_wave_cap_witness :
    (parseIds "BD-a,BD-b,BD-c,BD-d,BD-e").length = 5 ∧
    smart_spawn_wave 4 "BD-a,BD-b,BD-c,BD-d,BD-e" (fun _ => SpawnOutcome.err "unused")
      = (.errorTooMany (waveCapMsg (parseIds "BD-a,BD-b,BD-c,BD-d,BD-e").length 4)
          (parseIds "BD-a,BD-b,BD-c,BD-d,BD-e").length 4, []) :=
  ⟨by decide, smart_spawn_wave_cap 4 "BD-a,BD-b,BD-c,BD-d,BD-e" _ (by decide)⟩

/-- Claim C7: a `speak` call with `priority=False` issued while the audio
lock is held makes exactly one non-blocking flock attempt, sleeps 0 ms, and
aborts with the "busy" result — it never enters the 5-second retry window
reserved for priority callers. -/
theorem speak_best_effort_busy (lockBusy : Nat → Bool) (h : lockBusy 0 = true) :
    speak_lock_phase false lockBusy
      = { acquired := false, attempts := 1, slept_ms := 0, busy := true } := by
  simp [speak_lock_phase, h]

/-- Claim C7 witness: a permanently held lock. -/
theorem speak_best_effort_busy_witness :
    speak_lock_phase false (fun _ => true)
      = { acquired := false, attempts := 1, slept_ms := 0, busy := true } :=
  speak_best_effort_busy (fun _ => true) rfl

/-- Claim C8: `kill_worker` on a session whose tmux kill fails (no matching
session) is total — never an exception — and returns the success-shaped
message list headed by "Session ... not found or already killed", still
removing the state file when present and running the voice release on the
configuration. -/
theorem kill_worker_not_found (killRes : CmdResult) (state_exists : Bool)
    (config : Config) (session : String) (h : killRes.returncode ≠ 0) :
    (kill_worker killRes state_exists config session false none false killRes).messages.head?
      = some ("Session " ++ session ++ " not found or already killed") ∧
    (kill_worker killRes state_exists config session false none false killRes).state_file_removed
      = state_exists ∧
    (kill_worker killRes state_exists config session false none false killRes).config
      = (release_worker_voice config session).config ∧
    (kill_worker killRes state_exists config session false none false killRes).voice_release_saved
      = (release_worker_voice config session).saved := by
  cases state_exists <;> simp [kill_worker, h]

/-- Claim C8 witness: killing the never-spawned worker `BD-9` (tmux exit 1)
with a state file present and a voice assigned. -/
theorem kill_worker_not_found_witness :
    (kill_worker ⟨1, "", "no such session"⟩ true
        { defaultConfig with worker_voice_assignments := [("BD-9", "en-US-AriaNeural")] }
        "BD-9" false none false ⟨1, "", "no such session"⟩).messages.head?
      = some ("Session " ++ "BD-9" ++ " not found or already killed") ∧
    (kill_worker ⟨1, "", "no such session"⟩ true
        { defaultConfig with worker_voice_assignments := [("BD-9", "en-US-AriaNeural")] }
        "BD-9" false none false ⟨1, "", "no such session"⟩).state_file_removed = true ∧
    (kill_worker ⟨1, "", "no such session"⟩ true
        { defaultConfig with worker_voice_assignments := [("BD-9", "en-US-AriaNeural")] }
        "BD-9" false none false ⟨1, "", "no such session"⟩).config
      = (release_worker_voice
          { defaultConfig with worker_voice_assignments := [("BD-9", "en-US-AriaNeural")] }
          "BD-9").config ∧
    (kill_worker ⟨1, "", "no such session"⟩ true
        { defaultConfig with worker_voice_assignments := [("BD-9", "en-US-AriaNeural")] }
        "BD-9" false none false ⟨1, "", "no such session"⟩).voice_release_saved
      = (release_worker_voice
          { defaultConfig with worker_voice_assignments := [("BD-9", "en-US-AriaNeural")] }
          "BD-9").saved :=
  kill_worker_not_found ⟨1, "", "no such session"⟩ true
    { defaultConfig with worker_voice_assignments := [("BD-9", "en-US-AriaNeural")] }
    "BD-9" (by decide)

end Conductor
